import Mathlib

/-!
# Verification of the Trezor line-protocol client (`src/lib.rs`)

A shallow embedding of the host-side bridge in `src/lib.rs`: a client that
owns an external helper process, frames one JSON request line per call,
reads one response line, and decodes replies into typed results.

The JSON value type mirrors `serde_json::Value`; numbers are kept as their
textual lexeme (the claims never inspect numeric values).  The helper
process is modelled by the observable pipe state: the list of request
objects written (one line each, written-and-flushed), and the list of
response lines still pending on its output.
-/

set_option maxRecDepth 10000

/-- JSON values, mirroring `serde_json::Value`; a number is kept as its
source lexeme. -/
inductive Json where
  | null : Json
  | bool (b : Bool) : Json
  | num (lexeme : String) : Json
  | str (s : String) : Json
  | arr (items : List Json) : Json
  | obj (fields : List (String × Json)) : Json

/-- Field lookup on a JSON object (first binding wins); `none` on
non-objects. -/
def Json.getField (j : Json) (k : String) : Option Json :=
  match j with
  | .obj fields => fields.lookup k
  | _ => none

/-- The keys of a JSON object, in order; `[]` on non-objects. -/
def Json.keys (j : Json) : List String :=
  match j with
  | .obj fields => fields.map Prod.fst
  | _ => []

/-- ASCII/JSON whitespace, as recognised both by `str::trim` on the claim
inputs and by the JSON grammar. -/
def isWs (c : Char) : Bool :=
  c = ' ' || c = Char.ofNat 9 || c = Char.ofNat 10 || c = Char.ofNat 13

/-- Drop leading whitespace. -/
def skipWs : List Char → List Char
  | [] => []
  | c :: cs => if isWs c then skipWs cs else c :: cs

/-- Trim whitespace from both ends, modelling Rust `str::trim`. -/
def trimChars (cs : List Char) : List Char :=
  (skipWs ((skipWs cs).reverse)).reverse

/-- Longest digit run at the front of the input. -/
def takeDigits : List Char → (List Char × List Char)
  | [] => ([], [])
  | c :: cs =>
    if c.isDigit then
      let (ds, rest) := takeDigits cs
      (c :: ds, rest)
    else ([], c :: cs)

/-- Hexadecimal digit value, for `\u` escapes. -/
def hexVal (c : Char) : Option Nat :=
  if c.isDigit then some (c.toNat - 48)
  else if 'a' ≤ c && c ≤ 'f' then some (c.toNat - 87)
  else if 'A' ≤ c && c ≤ 'F' then some (c.toNat - 55)
  else none

/-- Body of a JSON string literal, after the opening quote: the decoded
string and the input after the closing quote. -/
def parseStringBody (acc : List Char) : List Char → Except String (String × List Char)
  | [] => .error "unterminated string"
  | c :: cs =>
    if c = '"' then .ok (String.mk acc.reverse, cs)
    else if c = Char.ofNat 92 then
      match cs with
      | [] => .error "unterminated string"
      | e :: cs2 =>
        if e = '"' then parseStringBody ('"' :: acc) cs2
        else if e = Char.ofNat 92 then parseStringBody (Char.ofNat 92 :: acc) cs2
        else if e = '/' then parseStringBody ('/' :: acc) cs2
        else if e = 'n' then parseStringBody (Char.ofNat 10 :: acc) cs2
        else if e = 't' then parseStringBody (Char.ofNat 9 :: acc) cs2
        else if e = 'r' then parseStringBody (Char.ofNat 13 :: acc) cs2
        else if e = 'b' then parseStringBody (Char.ofNat 8 :: acc) cs2
        else if e = 'f' then parseStringBody (Char.ofNat 12 :: acc) cs2
        else if e = 'u' then
          match cs2 with
          | h1 :: h2 :: h3 :: h4 :: cs3 =>
            match hexVal h1, hexVal h2, hexVal h3, hexVal h4 with
            | some a, some b, some c3, some d =>
              parseStringBody (Char.ofNat (((a * 16 + b) * 16 + c3) * 16 + d) :: acc) cs3
            | _, _, _, _ => .error "invalid unicode escape"
          | _ => .error "invalid unicode escape"
        else .error "invalid escape"
    else parseStringBody (c :: acc) cs

/-- Optional fraction part of a number: the consumed lexeme and the rest. -/
def parseFracPart : List Char → Except String (List Char × List Char)
  | [] => .ok ([], [])
  | c :: cs =>
    if c = '.' then
      let (ds, rest) := takeDigits cs
      if ds.isEmpty then .error "invalid number" else .ok (c :: ds, rest)
    else .ok ([], c :: cs)

/-- Optional exponent part of a number: the consumed lexeme and the rest. -/
def parseExpPart : List Char → Except String (List Char × List Char)
  | [] => .ok ([], [])
  | c :: cs =>
    if c = 'e' || c = 'E' then
      match cs with
      | [] => .error "invalid number"
      | d :: cs2 =>
        if d = '+' || d = '-' then
          let (ds, rest) := takeDigits cs2
          if ds.isEmpty then .error "invalid number" else .ok (c :: d :: ds, rest)
        else
          let (ds, rest) := takeDigits (d :: cs2)
          if ds.isEmpty then .error "invalid number" else .ok (c :: ds, rest)
    else .ok ([], c :: cs)

/-- A JSON number starting at the input head. -/
def parseNum (cs : List Char) : Except String (Json × List Char) := do
  let (sign, cs1) :=
    match cs with
    | c :: rest => if c = '-' then ([c], rest) else (([] : List Char), cs)
    | [] => (([] : List Char), ([] : List Char))
  let (ip, cs2) := takeDigits cs1
  if ip.isEmpty then
    .error "invalid number"
  else do
    let (fp, cs3) ← parseFracPart cs2
    let (ep, cs4) ← parseExpPart cs3
    .ok (Json.num (String.mk (sign ++ ip ++ fp ++ ep)), cs4)

/-- Consume an expected literal tail (of `null`, `true`, `false`). -/
def expectLit (lit : List Char) (cs : List Char) (v : Json) : Except String (Json × List Char) :=
  if lit.isPrefixOf cs then .ok (v, cs.drop lit.length) else .error "expected value"

/-- Parsing mode: a whole value, the elements of an array being built, or
the members of an object being built. -/
inductive PMode where
  | value : PMode
  | element (acc : List Json) : PMode
  | member (acc : List (String × Json)) : PMode

/-- Fuelled recursive-descent JSON parser step.  Structural in the fuel so
that concrete inputs evaluate by `decide`. -/
def pstep : Nat → PMode → List Char → Except String (Json × List Char)
  | 0, _, _ => .error "depth limit exceeded"
  | fuel + 1, PMode.value, cs =>
    (match skipWs cs with
     | [] => .error "expected value"
     | c :: cs2 =>
       if c = Char.ofNat 123 then
         (match skipWs cs2 with
          | [] => .error "unterminated object"
          | d :: cs3 =>
            if d = Char.ofNat 125 then .ok (Json.obj [], cs3)
            else pstep fuel (PMode.member []) (d :: cs3))
       else if c = '[' then
         (match skipWs cs2 with
          | [] => .error "unterminated array"
          | d :: cs3 =>
            if d = ']' then .ok (Json.arr [], cs3)
            else pstep fuel (PMode.element []) (d :: cs3))
       else if c = '"' then
         (match parseStringBody [] cs2 with
          | .error e => .error e
          | .ok (s, rest) => .ok (Json.str s, rest))
       else if c = 'n' then expectLit ['u', 'l', 'l'] cs2 Json.null
       else if c = 't' then expectLit ['r', 'u', 'e'] cs2 (Json.bool true)
       else if c = 'f' then expectLit ['a', 'l', 's', 'e'] cs2 (Json.bool false)
       else if c = '-' || c.isDigit then parseNum (c :: cs2)
       else .error "expected value")
  | fuel + 1, PMode.element acc, cs =>
    (match pstep fuel PMode.value cs with
     | .error e => .error e
     | .ok (v, rest) =>
       match skipWs rest with
       | [] => .error "unterminated array"
       | c :: rest2 =>
         if c = ',' then pstep fuel (PMode.element (v :: acc)) rest2
         else if c = ']' then .ok (Json.arr (v :: acc).reverse, rest2)
         else .error "expected comma or close bracket in array")
  | fuel + 1, PMode.member acc, cs =>
    (match skipWs cs with
     | [] => .error "unterminated object"
     | c :: cs2 =>
       if c = '"' then
         match parseStringBody [] cs2 with
         | .error e => .error e
         | .ok (k, rest) =>
           match skipWs rest with
           | [] => .error "unterminated object"
           | d :: rest2 =>
             if d = ':' then
               match pstep fuel PMode.value rest2 with
               | .error e => .error e
               | .ok (v, rest3) =>
                 match skipWs rest3 with
                 | [] => .error "unterminated object"
                 | e2 :: rest4 =>
                   if e2 = ',' then pstep fuel (PMode.member ((k, v) :: acc)) rest4
                   else if e2 = Char.ofNat 125 then .ok (Json.obj ((k, v) :: acc).reverse, rest4)
                   else .error "expected comma or close brace in object"
             else .error "expected colon in object"
       else .error "expected string key in object")

/-- Parse a complete JSON document from a character list, rejecting
trailing non-whitespace, modelling `serde_json::from_str`. -/
def parseJsonChars (cs : List Char) : Except String Json :=
  match pstep (cs.length * 4 + 16) PMode.value cs with
  | .error e => .error e
  | .ok (v, rest) =>
    match skipWs rest with
    | [] => .ok v
    | _ => .error "trailing characters"

/-- Parse a complete JSON document from a string. -/
def parseJson (s : String) : Except String Json :=
  parseJsonChars s.data

/-- Modelled from the spec: the closed error taxonomy of `errors.rs`
(not under `src/`); §7 fixes the four kinds, and `lib.rs` constructs each
variant with an `error_details` message. -/
inductive HardwareError where
  | IoError (error_details : String) : HardwareError
  | CommunicationError (error_details : String) : HardwareError
  | JsonError (error_details : String) : HardwareError
  | InitializationError (error_details : String) : HardwareError
deriving DecidableEq, Repr

/-- Modelled from the spec: the generic response envelope of `types.rs`
(not under `src/`): `{success: bool, payload: Option<T>, error:
Option<string>}`. -/
structure TrezorResponse (T : Type) where
  success : Bool
  payload : Option T
  error : Option String

/-- Modelled from the spec: the `getFeatures` payload of `types.rs` (not
under `src/`): `{device_id: string, vendor: string, ...other metadata}`. -/
structure TrezorDeviceFeatures where
  device_id : String
  vendor : String
deriving DecidableEq, Repr

/-- Modelled from the spec: `PublicKeyInfo` is an opaque helper-defined
payload; kept as the raw JSON value. -/
def PublicKeyInfo := Json

/-- Modelled from the spec: `AddressInfo` is an opaque helper-defined
payload; kept as the raw JSON value. -/
def AddressInfo := Json

/-- Observable state of a `TrezorClient`: the helper process handle with
its stdin writer and buffered stdout reader, modelled by the pipe state
the code in `lib.rs` can observe.  `stdinOpen` is whether `process.stdin`
is `Some`; `writeBroken` makes a write/flush to stdin fail (broken pipe);
`writtenLines` are the request objects written and flushed, one JSON line
each; `pendingOutput` are the helper response lines not yet consumed (an
empty list is end of stream, where `read_line` yields an empty line);
`waited` records that `process.wait()` ran. -/
structure TrezorClient where
  stdinOpen : Bool
  writeBroken : Bool
  writtenLines : List Json
  pendingOutput : List String
  waited : Bool

/-- Envelope synthesized for an empty response line (`lib.rs` line 59). -/
def emptyOutputEnvelope : Json :=
  Json.obj [("success", Json.bool false), ("error", Json.str "Empty output")]

/-- Envelope synthesized for an unparsable response line (`lib.rs` line
66), carrying the parse diagnostic. -/
def parseErrorEnvelope (diag : String) : Json :=
  Json.obj [("success", Json.bool false), ("error", Json.str ("JSON parse error: " ++ diag))]

/-- One `read_line` on the buffered reader: consume the next pending
response line, or yield an empty line at end of stream. -/
def readLineStep (s : TrezorClient) : String × TrezorClient :=
  match s.pendingOutput with
  | [] => ("", s)
  | l :: rest => (l, { s with pendingOutput := rest })

/-- Response-line handling of `send_command` (`lib.rs` 55–68): trim the
line; an empty line or a line that is not valid JSON is downgraded to a
synthesized unsuccessful envelope, never to an error. -/
def handleLine (line : String) : Except HardwareError Json :=
  let t := trimChars line.data
  if t.isEmpty then
    .ok emptyOutputEnvelope
  else
    match parseJsonChars t with
    | .ok v => .ok v
    | .error e => .ok (parseErrorEnvelope e)

/-- Method `TrezorClient::send_command` (`lib.rs` 37–71): if stdin is
unavailable, fail with `CommunicationError`; otherwise write the command
as one JSON line and flush (failure is `IoError`); then read one line and
handle it per `handleLine`. -/
def TrezorClient.send_command (self : TrezorClient) (command_obj : Json) :
    Except HardwareError Json × TrezorClient :=
  if self.stdinOpen then
    if self.writeBroken then
      (.error (.IoError "write failed"), self)
    else
      let afterWrite : TrezorClient :=
        { self with writtenLines := self.writtenLines ++ [command_obj] }
      let rl := readLineStep afterWrite
      (handleLine rl.1, rl.2)
  else
    (.error (.CommunicationError "Failed to get stdin"), self)

/-- Decode of the optional `error` field, as for `Option<String>`. -/
def decodeErrorField (v : Json) : Except String (Option String) :=
  match v.getField "error" with
  | none => .ok none
  | some Json.null => .ok none
  | some (Json.str s) => .ok (some s)
  | some _ => .error "invalid type for field error"

/-- Decode of the required `success` field, as for `bool`. -/
def decodeSuccessField (v : Json) : Except String Bool :=
  match v.getField "success" with
  | some (Json.bool b) => .ok b
  | some _ => .error "invalid type for field success"
  | none => .error "missing field success"

/-- Decode of the `getFeatures` payload into `TrezorDeviceFeatures`:
`device_id` and `vendor` are required strings; other metadata fields are
ignored. -/
def decodeFeatures (p : Json) : Except String TrezorDeviceFeatures :=
  match p.getField "device_id", p.getField "vendor" with
  | some (Json.str d), some (Json.str ve) => .ok ⟨d, ve⟩
  | _, _ => .error "invalid device features payload"

/-- Modelled from the spec: decode of the optional `payload` field of a
`getFeatures` envelope into the declared `TrezorDeviceFeatures` schema
(`types.rs` is not under `src/`). -/
def decodePayloadField (v : Json) : Except String (Option TrezorDeviceFeatures) :=
  match v.getField "payload" with
  | none => .ok none
  | some Json.null => .ok none
  | some p =>
    match decodeFeatures p with
    | .ok f => .ok (some f)
    | .error e => .error e

/-- Modelled from the spec: the typed decode of a `getFeatures` envelope
(`serde_json::from_value` into `TrezorResponse<TrezorDeviceFeatures>`,
whose `types.rs` is not under `src/`).  Per the spec data-model invariant,
for a data-returning command a success envelope without a payload is a
decode-time schema error, not silently accepted. -/
def decodeFeaturesResponse (v : Json) : Except String (TrezorResponse TrezorDeviceFeatures) := do
  let success ← decodeSuccessField v
  let err ← decodeErrorField v
  let payload ← decodePayloadField v
  if success && payload.isNone then
    .error "missing payload on success envelope"
  else
    .ok ⟨success, payload, err⟩

/-- Modelled from the spec: the typed decode of an envelope for a command
returning no data (`TrezorResponse<()>`); no payload is required. -/
def decodeUnitResponse (v : Json) : Except String (TrezorResponse Unit) := do
  let success ← decodeSuccessField v
  let err ← decodeErrorField v
  let payload := (match v.getField "payload" with
    | none => (none : Option Unit)
    | some Json.null => (none : Option Unit)
    | some _ => some Unit.unit)
  .ok ⟨success, payload, err⟩

/-- Modelled from the spec: the typed decode of an envelope whose payload
type is opaque and helper-defined; the payload is kept as raw JSON. -/
def decodeOpaqueResponse (v : Json) : Except String (TrezorResponse Json) := do
  let success ← decodeSuccessField v
  let err ← decodeErrorField v
  let payload := (match v.getField "payload" with
    | none => (none : Option Json)
    | some Json.null => (none : Option Json)
    | some p => some p)
  .ok ⟨success, payload, err⟩

/-- Request object of `init` (`lib.rs` line 74). -/
def initRequest : Json := Json.obj [("command", Json.str "init")]

/-- Request object of `getFeatures` (`lib.rs` line 81). -/
def getFeaturesRequest : Json := Json.obj [("command", Json.str "getFeatures")]

/-- Request object of `getpk` (`lib.rs` 88–92). -/
def getPublicKeyRequest (path coin : String) : Json :=
  Json.obj [("command", Json.str "getpk"), ("path", Json.str path), ("coin", Json.str coin)]

/-- Request object of `getaddr` (`lib.rs` 99–104). -/
def getAddressRequest (path coin : String) (show_on_trezor : Bool) : Json :=
  Json.obj [("command", Json.str "getaddr"), ("path", Json.str path),
    ("coin", Json.str coin), ("showOnTrezor", Json.bool show_on_trezor)]

/-- Request object of `exit` (`lib.rs` line 111). -/
def exitRequest : Json := Json.obj [("command", Json.str "exit")]

/-- Shared shape of every dispatcher method: call the channel, then decode
the envelope, mapping a decode failure to `JsonError` (`lib.rs` 75–76,
82–83, 93–94, 105–106, 112–113). -/
def decodeStep {T : Type} (r : Except HardwareError Json × TrezorClient)
    (dec : Json → Except String (TrezorResponse T)) :
    Except HardwareError (TrezorResponse T) × TrezorClient :=
  match r with
  | (.error e, s) => (.error e, s)
  | (.ok v, s) =>
    match dec v with
    | .error e => (.error (.JsonError e), s)
    | .ok tr => (.ok tr, s)

/-- Method `init` (`lib.rs` 73–78). -/
def TrezorClient.init (self : TrezorClient) :
    Except HardwareError (TrezorResponse Unit) × TrezorClient :=
  decodeStep (self.send_command initRequest) decodeUnitResponse

/-- Method `get_features` (`lib.rs` 80–85). -/
def TrezorClient.get_features (self : TrezorClient) :
    Except HardwareError (TrezorResponse TrezorDeviceFeatures) × TrezorClient :=
  decodeStep (self.send_command getFeaturesRequest) decodeFeaturesResponse

/-- Method `get_public_key` (`lib.rs` 87–96). -/
def TrezorClient.get_public_key (self : TrezorClient) (path coin : String) :
    Except HardwareError (TrezorResponse Json) × TrezorClient :=
  decodeStep (self.send_command (getPublicKeyRequest path coin)) decodeOpaqueResponse

/-- Method `get_address` (`lib.rs` 98–108). -/
def TrezorClient.get_address (self : TrezorClient) (path coin : String)
    (show_on_trezor : Bool) :
    Except HardwareError (TrezorResponse Json) × TrezorClient :=
  decodeStep (self.send_command (getAddressRequest path coin show_on_trezor)) decodeOpaqueResponse

/-- Method `exit` (`lib.rs` 110–115). -/
def TrezorClient.exit (self : TrezorClient) :
    Except HardwareError (TrezorResponse Unit) × TrezorClient :=
  decodeStep (self.send_command exitRequest) decodeUnitResponse

/-- Destructor `Drop for TrezorClient` (`lib.rs` 118–124): best-effort
send of the exit command, then wait for the process; the results of both
steps are discarded (`let _ = ...`), so teardown is a total function that
can surface no error. -/
def TrezorClient.drop (self : TrezorClient) : TrezorClient :=
  { (self.exit).2 with waited := true }

/-- Facade `initialize` of `lib.rs` (126–139), applied to a freshly
spawned client state: calls `init`; a success envelope yields the
confirmation string; an unsuccessful envelope yields
`InitializationError` with the reported message or "Unknown error"; any
transport or decode error from `init` propagates unchanged through the
`?` operator.  (The Lean name avoids a reserved word.) -/
def initLibrary (trezor : TrezorClient) : Except HardwareError String × TrezorClient :=
  match trezor.init with
  | (.error e, s) => (.error e, s)
  | (.ok initResp, s) =>
    if initResp.success then (.ok "Trezor library initialized", s)
    else (.error (.InitializationError (initResp.error.getD "Unknown error")), s)

/-- Success-branch body of `get_device_features` (`lib.rs` 143–149),
applied to an already decoded envelope.  The result `none` models the
panic of `features.payload.unwrap()` when the payload is absent on the
success branch. -/
def getDeviceFeaturesFromEnvelope (features : TrezorResponse TrezorDeviceFeatures) :
    Option (Except HardwareError TrezorDeviceFeatures) :=
  if features.success then
    features.payload.map Except.ok
  else
    some (.error (.InitializationError (features.error.getD "Unknown error")))

/-- Facade `get_device_features` (`lib.rs` 141–150): the full pipeline;
the result `none` models a panic of the unwrap. -/
def get_device_features (trezor : TrezorClient) :
    Option (Except HardwareError TrezorDeviceFeatures) × TrezorClient :=
  match trezor.get_features with
  | (.error e, s) => (some (.error e), s)
  | (.ok features, s) => (getDeviceFeaturesFromEnvelope features, s)

/-- Helper: the state after one `read_line` drops exactly the head of the
pending output and changes nothing else. -/
theorem readLineStep_snd (s : TrezorClient) :
    (readLineStep s).2 = { s with pendingOutput := s.pendingOutput.tail } := by
  cases s with
  | mk a b c d e => cases d <;> rfl

/-- Helper: the line produced by one `read_line` is the head of the
pending output (empty at end of stream). -/
theorem readLineStep_fst (s : TrezorClient) :
    (readLineStep s).1 = s.pendingOutput.headD "" := by
  cases s with
  | mk a b c d e => cases d <;> rfl

/-- Helper: the two-tiered tolerance of response-line handling never
yields an error. -/
theorem handleLine_isOk (line : String) : ∃ v, handleLine line = Except.ok v := by
  simp only [handleLine]
  split
  · exact ⟨_, rfl⟩
  · split
    · exact ⟨_, rfl⟩
    · exact ⟨_, rfl⟩

/-- Helper: on an open, unbroken channel `send_command` appends exactly
one request line and consumes exactly the head of the pending output. -/
theorem send_command_snd (s : TrezorClient) (cmd : Json)
    (h1 : s.stdinOpen = true) (h2 : s.writeBroken = false) :
    (s.send_command cmd).2 =
      { s with writtenLines := s.writtenLines ++ [cmd],
               pendingOutput := s.pendingOutput.tail } := by
  simp only [TrezorClient.send_command, h1, h2, Bool.false_eq_true, if_false, if_true,
    readLineStep_snd]

/-- Helper: on an open, unbroken channel the value returned by
`send_command` is the handling of the head pending line. -/
theorem send_command_fst (s : TrezorClient) (cmd : Json)
    (h1 : s.stdinOpen = true) (h2 : s.writeBroken = false) :
    (s.send_command cmd).1 = handleLine (s.pendingOutput.headD "") := by
  simp only [TrezorClient.send_command, h1, h2, Bool.false_eq_true, if_false, if_true,
    readLineStep_fst]

/-- Helper: the typed-decode step leaves the channel state unchanged. -/
theorem decodeStep_snd {T : Type} (r : Except HardwareError Json × TrezorClient)
    (dec : Json → Except String (TrezorResponse T)) :
    (decodeStep r dec).2 = r.2 := by
  obtain ⟨v, s⟩ := r
  cases v with
  | error e => rfl
  | ok v =>
    simp only [decodeStep]
    split <;> rfl

/-- Helper: a line that trims to nothing is handled as the synthesized
empty-output envelope. -/
theorem handleLine_blank (line : String) (h : (trimChars line.data).isEmpty = true) :
    handleLine line = .ok emptyOutputEnvelope := by
  simp only [handleLine, h, if_true]

/-- Helper: a line whose trimmed text parses as JSON is returned as the
parsed value. -/
theorem handleLine_parsed (line : String) (v : Json)
    (hv : parseJsonChars (trimChars line.data) = .ok v) :
    handleLine line = .ok v := by
  have hemp : (trimChars line.data).isEmpty = false := by
    cases hq : trimChars line.data with
    | nil =>
      rw [hq] at hv
      have h0 : parseJsonChars ([] : List Char) = .error "expected value" := rfl
      rw [h0] at hv
      cases hv
    | cons a l => rfl
  simp only [handleLine, hemp, Bool.false_eq_true, if_false, hv]

/-- Helper: a nonempty line whose trimmed text fails to parse is handled
as the synthesized parse-error envelope. -/
theorem handleLine_parseError (line : String) (e : String)
    (hne : (trimChars line.data).isEmpty = false)
    (hp : parseJsonChars (trimChars line.data) = .error e) :
    handleLine line = .ok (parseErrorEnvelope e) := by
  simp only [handleLine, hne, Bool.false_eq_true, if_false, hp]

/-- Helper: on an open, unbroken channel whose next pending line parses
as JSON `v`, `send_command` returns `v`. -/
theorem send_command_parsed (s : TrezorClient) (cmd : Json) (line : String)
    (rest : List String) (v : Json)
    (h1 : s.stdinOpen = true) (h2 : s.writeBroken = false)
    (h3 : s.pendingOutput = line :: rest)
    (hv : parseJsonChars (trimChars line.data) = .ok v) :
    (s.send_command cmd).1 = .ok v := by
  rw [send_command_fst s cmd h1 h2, h3]
  exact handleLine_parsed line v hv

/-- Predicate: one dispatcher call performs exactly one request-line
write-and-flush of `req` to the helper input and consumes exactly the
head of the pending helper output, changing nothing else in the channel
state. -/
def oneExchange {T : Type} (f : TrezorClient → Except HardwareError T × TrezorClient)
    (req : Json) (s : TrezorClient) : Prop :=
  (f s).2.writtenLines = s.writtenLines ++ [req] ∧
  (f s).2.pendingOutput = s.pendingOutput.tail ∧
  (f s).2.stdinOpen = s.stdinOpen ∧
  (f s).2.writeBroken = s.writeBroken ∧
  (f s).2.waited = s.waited

/-- Helper: every dispatcher method, being a decode step over one
`send_command`, performs exactly one exchange. -/
theorem oneExchange_decodeStep {T : Type} (dec : Json → Except String (TrezorResponse T))
    (req : Json) (s : TrezorClient)
    (h1 : s.stdinOpen = true) (h2 : s.writeBroken = false) :
    oneExchange (fun c => decodeStep (c.send_command req) dec) req s := by
  unfold oneExchange
  simp [decodeStep_snd, send_command_snd s req h1 h2]

/-- C1: for every single call to a dispatcher method (init, get_features,
get_public_key, get_address, exit) on an open, unbroken channel, exactly
one request line (the command object as one JSON line, flushed) is
written to the helper input and exactly one line is consumed from the
helper output; no other channel state is retained or buffered across
calls. -/
theorem claim_C1 (s : TrezorClient) (path coin : String) (flag : Bool)
    (h1 : s.stdinOpen = true) (h2 : s.writeBroken = false) :
    oneExchange TrezorClient.init initRequest s ∧
    oneExchange TrezorClient.get_features getFeaturesRequest s ∧
    oneExchange (fun c => c.get_public_key path coin) (getPublicKeyRequest path coin) s ∧
    oneExchange (fun c => c.get_address path coin flag) (getAddressRequest path coin flag) s ∧
    oneExchange TrezorClient.exit exitRequest s :=
  ⟨oneExchange_decodeStep decodeUnitResponse initRequest s h1 h2,
   oneExchange_decodeStep decodeFeaturesResponse getFeaturesRequest s h1 h2,
   oneExchange_decodeStep decodeOpaqueResponse (getPublicKeyRequest path coin) s h1 h2,
   oneExchange_decodeStep decodeOpaqueResponse (getAddressRequest path coin flag) s h1 h2,
   oneExchange_decodeStep decodeUnitResponse exitRequest s h1 h2⟩

/-- Concrete response line used by witnesses: a minimal success envelope. -/
def jsonTrueLine : String := "\x7b\"success\":true\x7d"

/-- Witness for C1 at a concrete client state. -/
theorem claim_C1_witness :
    oneExchange TrezorClient.init initRequest
      (⟨true, false, [], [jsonTrueLine], false⟩ : TrezorClient) :=
  (claim_C1 ⟨true, false, [], [jsonTrueLine], false⟩ "p" "c" true rfl rfl).1

/-- C2: when the peer emits an empty response line, `send_command` does
not return an error: it returns the synthesized envelope with
`success = false` and `error = "Empty output"`, and the channel remains
usable — the state stays open with the rest of the output pending, and a
subsequent call returns the next line parsed. -/
theorem claim_C2 (s : TrezorClient) (cmd : Json) (rest : List String)
    (h1 : s.stdinOpen = true) (h2 : s.writeBroken = false)
    (h3 : s.pendingOutput = "" :: rest) :
    (s.send_command cmd).1 = .ok emptyOutputEnvelope ∧
    emptyOutputEnvelope.getField "success" = some (Json.bool false) ∧
    emptyOutputEnvelope.getField "error" = some (Json.str "Empty output") ∧
    (s.send_command cmd).2.stdinOpen = true ∧
    (s.send_command cmd).2.writeBroken = false ∧
    (s.send_command cmd).2.pendingOutput = rest ∧
    (∀ cmd2 line2 rest2 v, rest = line2 :: rest2 →
      parseJsonChars (trimChars line2.data) = .ok v →
      ((s.send_command cmd).2.send_command cmd2).1 = .ok v) := by
  have hsnd := send_command_snd s cmd h1 h2
  refine ⟨?_, rfl, rfl, ?_, ?_, ?_, ?_⟩
  · rw [send_command_fst s cmd h1 h2, h3]
    exact handleLine_blank "" rfl
  · rw [hsnd]; exact h1
  · rw [hsnd]; exact h2
  · rw [hsnd, h3]; rfl
  · intro cmd2 line2 rest2 v hrest hv
    refine send_command_parsed _ cmd2 line2 rest2 v ?_ ?_ ?_ hv
    · rw [hsnd]; exact h1
    · rw [hsnd]; exact h2
    · rw [hsnd, h3]; exact hrest

/-- Witness for C2: a blank line then a valid line; the first call yields
the synthetic envelope and the second call parses the next line. -/
theorem claim_C2_witness :
    ((⟨true, false, [], ["", jsonTrueLine], false⟩ : TrezorClient).send_command initRequest).1
      = .ok emptyOutputEnvelope :=
  (claim_C2 ⟨true, false, [], ["", jsonTrueLine], false⟩ initRequest [jsonTrueLine]
    rfl rfl rfl).1

/-- C3: when the peer emits a nonempty line that is not valid JSON,
`send_command` does not return an error: it returns a synthesized
envelope with `success = false` whose error text carries the parse
diagnostic, and the channel remains usable for a subsequent call. -/
theorem claim_C3 (s : TrezorClient) (cmd : Json) (line : String) (rest : List String)
    (e : String)
    (h1 : s.stdinOpen = true) (h2 : s.writeBroken = false)
    (h3 : s.pendingOutput = line :: rest)
    (hne : (trimChars line.data).isEmpty = false)
    (hp : parseJsonChars (trimChars line.data) = .error e) :
    (s.send_command cmd).1 = .ok (parseErrorEnvelope e) ∧
    (parseErrorEnvelope e).getField "success" = some (Json.bool false) ∧
    (∃ d, (parseErrorEnvelope e).getField "error"
      = some (Json.str ("JSON parse error: " ++ d))) ∧
    (s.send_command cmd).2.stdinOpen = true ∧
    (s.send_command cmd).2.writeBroken = false ∧
    (s.send_command cmd).2.pendingOutput = rest ∧
    (∀ cmd2 line2 rest2 v, rest = line2 :: rest2 →
      parseJsonChars (trimChars line2.data) = .ok v →
      ((s.send_command cmd).2.send_command cmd2).1 = .ok v) := by
  have hsnd := send_command_snd s cmd h1 h2
  refine ⟨?_, rfl, ⟨e, rfl⟩, ?_, ?_, ?_, ?_⟩
  · rw [send_command_fst s cmd h1 h2, h3]
    exact handleLine_parseError line e hne hp
  · rw [hsnd]; exact h1
  · rw [hsnd]; exact h2
  · rw [hsnd, h3]; rfl
  · intro cmd2 line2 rest2 v hrest hv
    refine send_command_parsed _ cmd2 line2 rest2 v ?_ ?_ ?_ hv
    · rw [hsnd]; exact h1
    · rw [hsnd]; exact h2
    · rw [hsnd, h3]; exact hrest

/-- Witness for C3: the line "not json" fails to parse and yields the
synthetic parse-error envelope; the next call parses the next line. -/
theorem claim_C3_witness :
    ((⟨true, false, [], ["not json", jsonTrueLine], false⟩ : TrezorClient).send_command
      initRequest).1 = .ok (parseErrorEnvelope "expected value") :=
  (claim_C3 ⟨true, false, [], ["not json", jsonTrueLine], false⟩ initRequest
    "not json" [jsonTrueLine] "expected value" rfl rfl rfl rfl rfl).1

/-- Helper: a successfully decoded `getFeatures` envelope never has
`success = true` with an absent payload. -/
theorem decodeFeaturesResponse_success_payload (v : Json)
    (r : TrezorResponse TrezorDeviceFeatures)
    (hd : decodeFeaturesResponse v = .ok r) (hs : r.success = true) :
    r.payload.isSome = true := by
  unfold decodeFeaturesResponse at hd
  cases hA : decodeSuccessField v with
  | error e => rw [hA] at hd; simp [Bind.bind, Except.bind] at hd
  | ok success =>
    rw [hA] at hd
    cases hB : decodeErrorField v with
    | error e => rw [hB] at hd; simp [Bind.bind, Except.bind] at hd
    | ok err =>
      rw [hB] at hd
      cases hC : decodePayloadField v with
      | error e => rw [hC] at hd; simp [Bind.bind, Except.bind] at hd
      | ok payload =>
        rw [hC] at hd
        simp only [Bind.bind, Except.bind] at hd
        by_cases hcond : (success && payload.isNone) = true
        · rw [if_pos hcond] at hd; cases hd
        · rw [if_neg hcond] at hd
          cases hd
          have hs2 : success = true := hs
          rw [hs2] at hcond
          show payload.isSome = true
          cases payload with
          | none => simp at hcond
          | some f => rfl

/-- Helper: `send_command` on a client without a writable stdin handle
fails with the `CommunicationError` of `lib.rs` line 47. -/
theorem send_command_noStdin (s : TrezorClient) (cmd : Json)
    (h : s.stdinOpen = false) :
    s.send_command cmd = (.error (.CommunicationError "Failed to get stdin"), s) := by
  simp [TrezorClient.send_command, h]

/-- Helper: pairing of `send_command` projections on the parsed-line
path. -/
theorem send_command_pair (s : TrezorClient) (cmd : Json) (line : String)
    (rest : List String) (v : Json)
    (h1 : s.stdinOpen = true) (h2 : s.writeBroken = false)
    (h3 : s.pendingOutput = line :: rest)
    (hv : parseJsonChars (trimChars line.data) = .ok v) :
    s.send_command cmd = (.ok v, (s.send_command cmd).2) := by
  have hfst := send_command_parsed s cmd line rest v h1 h2 h3 hv
  have heta : ((s.send_command cmd).1, (s.send_command cmd).2) = s.send_command cmd :=
    Prod.mk.eta
  rw [hfst] at heta
  exact heta.symm

/-- C4: for the data-returning `getFeatures` command, a syntactically
valid envelope with `success = true` but no payload fails at decode time
(the dispatcher surfaces it as `JsonError`), and a successfully decoded
envelope with `success = true` always carries a payload — the violation
is never silently accepted. -/
theorem claim_C4 (v : Json) (r : TrezorResponse TrezorDeviceFeatures)
    (hd : decodeFeaturesResponse v = .ok r) :
    ((⟨true, false, [], [jsonTrueLine], false⟩ : TrezorClient).get_features).1
      = .error (.JsonError "missing payload on success envelope") ∧
    (r.success = true → r.payload.isSome = true) :=
  ⟨rfl, decodeFeaturesResponse_success_payload v r hd⟩

/-- Witness for C4 at a concrete decoded envelope. -/
theorem claim_C4_witness :
    ((⟨true, false, [], [jsonTrueLine], false⟩ : TrezorClient).get_features).1
      = .error (.JsonError "missing payload on success envelope") :=
  (claim_C4 (Json.obj [("success", Json.bool false)]) ⟨false, none, none⟩ rfl).1

/-- Classifier: whether a facade result is an `InitializationError`. -/
def isInitializationError : Except HardwareError String → Bool
  | .error (.InitializationError _) => true
  | _ => false

/-- Counterexample to C5 as stated: on a client with a broken input pipe
(a write failure, `lib.rs` line 43) `init` fails with a transport-level
`IoError`, and on a client with no input handle (`lib.rs` line 47) with a
`CommunicationError`; in both cases the facade propagates the error
unchanged through the `?` operator — the result is not an
`InitializationError`, refuting the claim that a transport-level failure
is returned as an `InitializationError`. -/
theorem claim_C5_counterexample :
    (initLibrary ⟨true, true, [], [], false⟩).1 = .error (.IoError "write failed") ∧
    isInitializationError (initLibrary ⟨true, true, [], [], false⟩).1 = false ∧
    (initLibrary ⟨false, false, [], [], false⟩).1
      = .error (.CommunicationError "Failed to get stdin") ∧
    isInitializationError (initLibrary ⟨false, false, [], [], false⟩).1 = false :=
  ⟨rfl, rfl, rfl, rfl⟩

/-- C5 (amended): the facade returns the success confirmation when the
init envelope has `success = true`; an unsuccessful envelope yields an
`InitializationError` carrying the reported message, or "Unknown error"
when the envelope carries none; but a transport-level failure (such as a
missing stdin handle) propagates unchanged as its own error kind rather
than being mapped to `InitializationError`. -/
theorem claim_C5 (s : TrezorClient) (line : String) (rest : List String) (v : Json)
    (r : TrezorResponse Unit)
    (h1 : s.stdinOpen = true) (h2 : s.writeBroken = false)
    (h3 : s.pendingOutput = line :: rest)
    (hv : parseJsonChars (trimChars line.data) = .ok v)
    (hd : decodeUnitResponse v = .ok r) :
    (r.success = true → (initLibrary s).1 = .ok "Trezor library initialized") ∧
    (r.success = false →
      (initLibrary s).1 = .error (.InitializationError (r.error.getD "Unknown error"))) ∧
    (∀ s2 : TrezorClient, s2.stdinOpen = false →
      (initLibrary s2).1 = .error (.CommunicationError "Failed to get stdin")) := by
  have hpair := send_command_pair s initRequest line rest v h1 h2 h3 hv
  have hinit : TrezorClient.init s = (.ok r, (s.send_command initRequest).2) := by
    unfold TrezorClient.init
    rw [hpair]
    simp [decodeStep, hd]
  refine ⟨?_, ?_, ?_⟩
  · intro hs
    unfold initLibrary
    rw [hinit]
    simp [hs]
  · intro hs
    unfold initLibrary
    rw [hinit]
    simp [hs]
  · intro s2 h
    unfold initLibrary TrezorClient.init
    rw [send_command_noStdin s2 initRequest h]
    rfl

/-- Witness for C5 (amended) at a concrete success envelope. -/
theorem claim_C5_witness :
    (initLibrary ⟨true, false, [], [jsonTrueLine], false⟩).1
      = .ok "Trezor library initialized" :=
  (claim_C5 ⟨true, false, [], [jsonTrueLine], false⟩ jsonTrueLine []
    (Json.obj [("success", Json.bool true)]) ⟨true, none, none⟩
    rfl rfl rfl rfl rfl).1 rfl

/-- Concrete stub line of the spec: a success `getFeatures` envelope with
device_id "abc123" and vendor "Trezor". -/
def stubFeaturesLine : String :=
  "\x7b\"success\":true,\"payload\":\x7b\"device_id\":\"abc123\",\"vendor\":\"Trezor\"\x7d\x7d"

/-- C6: with a stub peer replying the success envelope whose payload is
device_id "abc123" and vendor "Trezor", `get_device_features` returns
exactly that `TrezorDeviceFeatures`; and when the decoded envelope is
unsuccessful it returns an `InitializationError` carrying the reported
message, or "Unknown error" when none is given. -/
theorem claim_C6 (s : TrezorClient) (line : String) (rest : List String) (v : Json)
    (r : TrezorResponse TrezorDeviceFeatures)
    (h1 : s.stdinOpen = true) (h2 : s.writeBroken = false)
    (h3 : s.pendingOutput = line :: rest)
    (hv : parseJsonChars (trimChars line.data) = .ok v)
    (hd : decodeFeaturesResponse v = .ok r) (hr : r.success = false) :
    (get_device_features ⟨true, false, [], [stubFeaturesLine], false⟩).1
      = some (.ok ⟨"abc123", "Trezor"⟩) ∧
    (get_device_features s).1
      = some (.error (.InitializationError (r.error.getD "Unknown error"))) := by
  have hpair := send_command_pair s getFeaturesRequest line rest v h1 h2 h3 hv
  have hfeat : TrezorClient.get_features s
      = (.ok r, (s.send_command getFeaturesRequest).2) := by
    unfold TrezorClient.get_features
    rw [hpair]
    simp [decodeStep, hd]
  refine ⟨rfl, ?_⟩
  unfold get_device_features
  rw [hfeat]
  simp [getDeviceFeaturesFromEnvelope, hr]

/-- Concrete response line used by the C6 witness: an unsuccessful
envelope reporting "boom". -/
def failLine : String := "\x7b\"success\":false,\"error\":\"boom\"\x7d"

/-- Witness for C6 at a concrete unsuccessful envelope. -/
theorem claim_C6_witness :
    (get_device_features ⟨true, false, [], [failLine], false⟩).1
      = some (.error (.InitializationError "boom")) :=
  (claim_C6 ⟨true, false, [], [failLine], false⟩ failLine []
    (Json.obj [("success", Json.bool false), ("error", Json.str "boom")])
    ⟨false, none, some "boom"⟩ rfl rfl rfl rfl rfl rfl).2

/-- C7: `get_public_key(path, coin)` builds a request object containing
exactly the fields command = "getpk", path and coin, and sends exactly
that object as the request line. -/
theorem claim_C7 (path coin : String) :
    (getPublicKeyRequest path coin).getField "command" = some (Json.str "getpk") ∧
    (getPublicKeyRequest path coin).getField "path" = some (Json.str path) ∧
    (getPublicKeyRequest path coin).getField "coin" = some (Json.str coin) ∧
    (getPublicKeyRequest path coin).keys = ["command", "path", "coin"] ∧
    (∀ s : TrezorClient, s.stdinOpen = true → s.writeBroken = false →
      (s.get_public_key path coin).2.writtenLines
        = s.writtenLines ++ [getPublicKeyRequest path coin]) := by
  refine ⟨rfl, rfl, rfl, rfl, ?_⟩
  intro s hs hw
  unfold TrezorClient.get_public_key
  rw [decodeStep_snd, send_command_snd s (getPublicKeyRequest path coin) hs hw]

/-- Apostrophe character, used to build derivation-path literals. -/
def apos : Char := Char.ofNat 39

/-- The derivation path of the spec example. -/
def examplePath : String :=
  "m/44" ++ String.singleton apos ++ "/0" ++ String.singleton apos
    ++ "/0" ++ String.singleton apos

/-- Witness for C7 at the spec example inputs. -/
theorem claim_C7_witness :
    (getPublicKeyRequest examplePath "Bitcoin").getField "command"
      = some (Json.str "getpk") ∧
    (getPublicKeyRequest examplePath "Bitcoin").getField "path"
      = some (Json.str examplePath) ∧
    (getPublicKeyRequest examplePath "Bitcoin").getField "coin"
      = some (Json.str "Bitcoin") ∧
    ((⟨true, false, [], [], false⟩ : TrezorClient).get_public_key examplePath
      "Bitcoin").2.writtenLines = [getPublicKeyRequest examplePath "Bitcoin"] := by
  have h := claim_C7 examplePath "Bitcoin"
  exact ⟨h.1, h.2.1, h.2.2.1, h.2.2.2.2 ⟨true, false, [], [], false⟩ rfl rfl⟩

/-- C8: `get_address(path, coin, flag)` builds a request object with
command = "getaddr" containing path, coin, and a showOnTrezor field equal
to the flag, and sends exactly that object as the request line. -/
theorem claim_C8 (path coin : String) (flag : Bool) :
    (getAddressRequest path coin flag).getField "command" = some (Json.str "getaddr") ∧
    (getAddressRequest path coin flag).getField "path" = some (Json.str path) ∧
    (getAddressRequest path coin flag).getField "coin" = some (Json.str coin) ∧
    (getAddressRequest path coin flag).getField "showOnTrezor" = some (Json.bool flag) ∧
    (getAddressRequest path coin flag).keys = ["command", "path", "coin", "showOnTrezor"] ∧
    (∀ s : TrezorClient, s.stdinOpen = true → s.writeBroken = false →
      (s.get_address path coin flag).2.writtenLines
        = s.writtenLines ++ [getAddressRequest path coin flag]) := by
  refine ⟨rfl, rfl, rfl, rfl, rfl, ?_⟩
  intro s hs hw
  unfold TrezorClient.get_address
  rw [decodeStep_snd, send_command_snd s (getAddressRequest path coin flag) hs hw]

/-- Witness for C8: with the flag set, the request carries
showOnTrezor = true. -/
theorem claim_C8_witness :
    (getAddressRequest examplePath "Bitcoin" true).getField "showOnTrezor"
      = some (Json.bool true) ∧
    ((⟨true, false, [], [], false⟩ : TrezorClient).get_address examplePath "Bitcoin"
      true).2.writtenLines = [getAddressRequest examplePath "Bitcoin" true] := by
  have h := claim_C8 examplePath "Bitcoin" true
  exact ⟨h.2.2.2.1, h.2.2.2.2.2 ⟨true, false, [], [], false⟩ rfl rfl⟩

/-- C9: on destruction the client attempts the exit command and then
waits for the helper process; on an intact channel the exit request line
is actually written; on every state whatsoever — including after failed
commands, a closed stdin, or a broken pipe — teardown completes as a
total function (errors are discarded, never escalated) and the process is
waited on. -/
theorem claim_C9 (s : TrezorClient)
    (h1 : s.stdinOpen = true) (h2 : s.writeBroken = false) :
    (TrezorClient.drop s).waited = true ∧
    (TrezorClient.drop s).writtenLines = s.writtenLines ++ [exitRequest] ∧
    (∀ s2 : TrezorClient, (TrezorClient.drop s2).waited = true) := by
  refine ⟨rfl, ?_, fun s2 => rfl⟩
  unfold TrezorClient.drop TrezorClient.exit
  rw [decodeStep_snd, send_command_snd s exitRequest h1 h2]

/-- Witness for C9 at a concrete state (here one whose pending output is
already exhausted, as after earlier failed calls). -/
theorem claim_C9_witness :
    (TrezorClient.drop ⟨true, false, [], [], false⟩).waited = true ∧
    (TrezorClient.drop ⟨true, false, [], [], false⟩).writtenLines = [exitRequest] :=
  ⟨(claim_C9 ⟨true, false, [], [], false⟩ rfl rfl).1,
   (claim_C9 ⟨true, false, [], [], false⟩ rfl rfl).2.1⟩

/-- C10: the success branch of `get_device_features` unconditionally
unwraps the optional payload: an envelope with `success = true` and no
payload makes it panic (modelled as `none`) instead of returning a typed
error; with a payload present it returns it; and freedom from panic
holds under the precondition that every success envelope carries a
payload. -/
theorem claim_C10 (e : Option String) (r : TrezorResponse TrezorDeviceFeatures) :
    getDeviceFeaturesFromEnvelope ⟨true, none, e⟩ = none ∧
    (∀ f, getDeviceFeaturesFromEnvelope ⟨true, some f, e⟩ = some (.ok f)) ∧
    ((r.success = true → r.payload.isSome = true) →
      (getDeviceFeaturesFromEnvelope r).isSome = true) := by
  refine ⟨rfl, fun f => rfl, ?_⟩
  intro hpre
  cases hsucc : r.success with
  | false =>
    unfold getDeviceFeaturesFromEnvelope
    rw [hsucc]
    simp
  | true =>
    have hp := hpre hsucc
    unfold getDeviceFeaturesFromEnvelope
    rw [hsucc]
    simpa using hp

/-- Witness for C10 at concrete envelopes. -/
theorem claim_C10_witness :
    getDeviceFeaturesFromEnvelope ⟨true, none, none⟩ = none ∧
    (getDeviceFeaturesFromEnvelope ⟨true, some ⟨"abc123", "Trezor"⟩, none⟩).isSome
      = true :=
  ⟨(claim_C10 none ⟨true, some ⟨"abc123", "Trezor"⟩, none⟩).1,
   (claim_C10 none ⟨true, some ⟨"abc123", "Trezor"⟩, none⟩).2.2 (fun _ => rfl)⟩
